import Mathlib

/-!
Shallow embedding of `zerver/lib/users.py` (user-lookup and field-validation
helpers) together with the collaborators it uses, and proofs of the spec's
claims about it.

Conventions of the embedding:
* Python strings are Lean `String`s; `str.strip()` is `pyStrip`,
  `str.lower()` / `str.upper()` are `pyLower` / `pyUpper` (ASCII case folding,
  which is all the module's email/name handling exercises).
* A Python function that can `raise JsonableError(msg)` becomes a function
  into `Except String _`, the error carrying the user-facing message string.
* The Django backing store becomes an explicit list of `UserProfile` rows;
  the cache becomes an explicit association list.
-/

/-! ## Definitions -/

/-- ASCII/simple whitespace test matching Python's `str.strip()` default
character class (space, tab, newline, carriage return, vertical tab,
form feed). -/
def isPySpace (c : Char) : Bool :=
  c = ' ' || c = '\t' || c = '\n' || c = '\r' || c = '\x0b' || c = '\x0c'

/-- Python `str.strip()`: drop leading and trailing whitespace. -/
def pyStrip (s : String) : String :=
  ⟨((s.data.dropWhile isPySpace).reverse.dropWhile isPySpace).reverse⟩

/-- Python `str.lower()` (ASCII case folding), character by character. -/
def pyLower (s : String) : String := ⟨s.data.map Char.toLower⟩

/-- Python `str.upper()` (ASCII case folding), character by character. -/
def pyUpper (s : String) : String := ⟨s.data.map Char.toUpper⟩

/-- Modelled from the spec: the `Realm` entity of the data model (the source
of the `Realm` Django model, `zerver/models.py`, is not among the given
sources). A realm is an organizational tenant boundary, identified here by
its primary key. -/
structure Realm where
  realm_id : Nat
deriving DecidableEq, Repr

/-- Modelled from the spec: the `UserProfile` entity of the data model
(`zerver/models.py` is not among the given sources). Attributes relevant to
this core: unique numeric id, email, owning realm reference, active flag. -/
structure UserProfile where
  user_id : Nat
  email : String
  realm : Realm
  is_active : Bool
deriving DecidableEq, Repr

/-- Modelled from the spec: the name-policy constants that live on the
`UserProfile` model class (`MAX_NAME_LENGTH`, `MIN_NAME_LENGTH`,
`NAME_INVALID_CHARS` in `zerver/models.py`, not among the given sources).
The spec calls them configured length bounds and a configured
forbidden-character set, without fixing values, so they are kept abstract. -/
structure NameConfig where
  MAX_NAME_LENGTH : Nat
  MIN_NAME_LENGTH : Nat
  NAME_INVALID_CHARS : List Char
deriving DecidableEq, Repr

/-- `check_full_name` from `zerver/lib/users.py`: strip, then reject
over-long, under-short, and forbidden-character names, in that order;
return the stripped name on success. -/
def check_full_name (cfg : NameConfig) (full_name_raw : String) :
    Except String String :=
  let full_name := pyStrip full_name_raw
  if full_name.length > cfg.MAX_NAME_LENGTH then
    .error "Name too long!"
  else if full_name.length < cfg.MIN_NAME_LENGTH then
    .error "Name too short!"
  else if full_name.data.any (fun c => cfg.NAME_INVALID_CHARS.contains c) then
    .error "Invalid characters in name!"
  else
    .ok full_name

/-- `check_short_name` from `zerver/lib/users.py`: strip, reject the empty
result, return the stripped name otherwise. -/
def check_short_name (short_name_raw : String) : Except String String :=
  let short_name := pyStrip short_name_raw
  if short_name.length = 0 then
    .error "Bad name or username"
  else
    .ok short_name

/-- Modelled from the spec: the backing store's point lookup by numeric id
(`get_user_profile_by_id` in `zerver/models.py`, not among the given
sources); returns the entity with the given id when present, a `NotFound`
signal (`none`) when absent. The store itself is the explicit list `db`. -/
def get_user_profile_by_id (db : List UserProfile) (user_id : Nat) :
    Option UserProfile :=
  db.find? (fun u => u.user_id = user_id)

/-- The message of the `JsonableError` raised by `user_ids_to_users`:
`"Invalid user ID: %s" % (user_id,)`. -/
def invalidUserIdMsg (user_id : Nat) : String :=
  "Invalid user ID: " ++ toString user_id

/-- `user_ids_to_users` from `zerver/lib/users.py`: one point lookup per id,
raising `JsonableError` on the first id that is missing from the store or
whose entity's realm differs from the supplied realm; on success the
entities are accumulated in input order. -/
def user_ids_to_users (db : List UserProfile) (user_ids : List Nat)
    (realm : Realm) : Except String (List UserProfile) :=
  match user_ids with
  | [] => .ok []
  | user_id :: rest =>
    match get_user_profile_by_id db user_id with
    | none => .error (invalidUserIdMsg user_id)
    | some user_profile =>
      if user_profile.realm ≠ realm then
        .error (invalidUserIdMsg user_id)
      else
        match user_ids_to_users db rest realm with
        | .error e => .error e
        | .ok user_profiles => .ok (user_profile :: user_profiles)

/-- Instrumented variant of `user_ids_to_users` that additionally counts the
backing-store point lookups performed (one `get_user_profile_by_id` call per
loop iteration reached). -/
def user_ids_to_users_count (db : List UserProfile) (user_ids : List Nat)
    (realm : Realm) : Except String (List UserProfile) × Nat :=
  match user_ids with
  | [] => (.ok [], 0)
  | user_id :: rest =>
    match get_user_profile_by_id db user_id with
    | none => (.error (invalidUserIdMsg user_id), 1)
    | some user_profile =>
      if user_profile.realm ≠ realm then
        (.error (invalidUserIdMsg user_id), 1)
      else
        let p := user_ids_to_users_count db rest realm
        (match p.1 with
         | .error e => .error e
         | .ok user_profiles => .ok (user_profile :: user_profiles),
         p.2 + 1)

/-- An id resolves in a realm when the store has an entity with that id and
the entity belongs to that realm. -/
def resolvesIn (db : List UserProfile) (realm : Realm) (user_id : Nat) : Prop :=
  ∃ u, get_user_profile_by_id db user_id = some u ∧ u.realm = realm

instance (db : List UserProfile) (realm : Realm) (user_id : Nat) :
    Decidable (resolvesIn db realm user_id) := by
  unfold resolvesIn
  exact inferInstance

/-- Keep the first occurrence of every key, dropping later duplicates (the
spec's step 1 deduplication, written with structural recursion). -/
def dedupFirst {κ : Type} [DecidableEq κ] : List κ → List κ
  | [] => []
  | k :: rest => k :: (dedupFirst rest).filter (fun x => x ≠ k)

/-- Lookup in an association list: value of the first pair whose key
matches. -/
def alistLookup {ε : Type} (c : List (String × ε)) (k : String) : Option ε :=
  (c.find? (fun p => p.1 == k)).map Prod.snd

/-- Modelled from the spec: `generic_bulk_cached_fetch` from
`zerver/lib/cache.py`, which is not among the given sources. Following the
spec's §4.2 algorithm: partition the object ids by cache hit on their
canonical cache key, batch-fetch the deduplicated misses (zero backing-store
calls when there are no misses), record every fetched entity under the cache
key of the id `id_fetcher` derives from it, and return the association of
each inbound object id that now has a cache entry with its entity. Negative
caching, which the spec marks optional, is not modelled. -/
def generic_bulk_cached_fetch {κ ε : Type} [DecidableEq κ]
    (cache : List (String × ε))
    (cache_key_function : κ → String)
    (query_function : List κ → List ε)
    (object_ids : List κ)
    (id_fetcher : ε → κ) : List (κ × ε) :=
  let needed_ids := dedupFirst (object_ids.filter
    (fun oid => (alistLookup cache (cache_key_function oid)).isNone))
  let db_objects := if needed_ids.isEmpty then [] else query_function needed_ids
  let new_cache := db_objects.map
    (fun obj => (cache_key_function (id_fetcher obj), obj)) ++ cache
  object_ids.filterMap (fun oid =>
    (alistLookup new_cache (cache_key_function oid)).map (fun e => (oid, e)))

/-- Modelled from the spec: `user_profile_by_email_cache_key` from
`zerver/lib/cache.py`, not among the given sources; the canonical cache key
is a (prefix-tagged, injective) function of the normalized email. -/
def user_profile_by_email_cache_key (email : String) : String :=
  "user_profile_by_email:" ++ email

/-- The default base query of `bulk_get_users`:
`UserProfile.objects.filter(realm=realm, is_active=True)` over the explicit
store `db`. -/
def default_base_query (db : List UserProfile) (realm : Realm) :
    List UserProfile :=
  db.filter (fun u => u.realm == realm && u.is_active)

/-- The inner `fetch_users_by_email` of `bulk_get_users` in
`zerver/lib/users.py`: empty input short-circuits to no rows; otherwise the
base query is filtered by the SQL clause
`UPPER(zerver_userprofile.email::text) IN (UPPER(%s), ...)`, i.e. rows whose
upper-cased email equals the upper-casing of one of the requested emails. -/
def fetch_users_by_email (base_query : List UserProfile)
    (emails : List String) : List UserProfile :=
  if emails.length = 0 then
    []
  else
    base_query.filter (fun u =>
      emails.any (fun e => pyUpper u.email == pyUpper e))

/-- `bulk_get_users` from `zerver/lib/users.py`. When `base_query` is absent
it is built from `realm` (after `assert realm is not None`, modelled as the
`none` result — an `AssertionError`, distinct from every `JsonableError`
value this module produces). The emails are lower-cased and handed to
`generic_bulk_cached_fetch` with the email cache key function and an
`id_fetcher` that lower-cases the fetched entity's email. -/
def bulk_get_users (db : List UserProfile)
    (cache : List (String × UserProfile)) (emails : List String)
    (realm : Option Realm) (base_query : Option (List UserProfile)) :
    Option (List (String × UserProfile)) :=
  match base_query, realm with
  | none, none => none
  | none, some r =>
    some (generic_bulk_cached_fetch cache
      (fun email => user_profile_by_email_cache_key email)
      (fetch_users_by_email (default_base_query db r))
      (emails.map pyLower)
      (fun user_profile => pyLower user_profile.email))
  | some bq, _ =>
    some (generic_bulk_cached_fetch cache
      (fun email => user_profile_by_email_cache_key email)
      (fetch_users_by_email bq)
      (emails.map pyLower)
      (fun user_profile => pyLower user_profile.email))

/-- Sample realm used by concrete witnesses and counterexamples. -/
def realmA : Realm := ⟨1⟩

/-- A second sample realm, distinct from `realmA`. -/
def realmB : Realm := ⟨2⟩

/-- A sample active user in `realmA` with an all-lower-case email. -/
def alice : UserProfile := ⟨1, "alice@example.com", realmA, true⟩

/-- A second sample active user in `realmA`. -/
def bob : UserProfile := ⟨2, "bob@example.com", realmA, true⟩

/-- A third sample active user in `realmA`. -/
def carol : UserProfile := ⟨3, "carol@example.com", realmA, true⟩

/-- Sample store holding `alice`, `bob` and `carol`. -/
def dbA : List UserProfile := [alice, bob, carol]

/-! ## Theorems -/

theorem length_dropWhile_le {α : Type} (p : α → Bool) (l : List α) :
    (l.dropWhile p).length ≤ l.length := by
  induction l with
  | nil => simp
  | cons a l ih =>
    by_cases h : p a
    · simp only [List.dropWhile_cons, h, if_true, List.length_cons]
      omega
    · simp [List.dropWhile_cons, h]

theorem pyStrip_length_le (s : String) : (pyStrip s).length ≤ s.length := by
  have h1 : (s.data.dropWhile isPySpace).length ≤ s.data.length :=
    length_dropWhile_le _ _
  have h2 : ((s.data.dropWhile isPySpace).reverse.dropWhile isPySpace).length ≤
      (s.data.dropWhile isPySpace).reverse.length :=
    length_dropWhile_le _ _
  simp only [pyStrip, String.length, List.length_reverse] at *
  omega

theorem user_ids_to_users_ok_eq (db : List UserProfile) (realm : Realm)
    (ids : List Nat) (h : ∀ i ∈ ids, resolvesIn db realm i) :
    user_ids_to_users db ids realm =
      .ok (ids.filterMap (get_user_profile_by_id db)) := by
  induction ids with
  | nil => simp [user_ids_to_users]
  | cons i rest ih =>
    obtain ⟨u, hu, hrealm⟩ := h i (by simp)
    have hrest := ih (fun j hj => h j (by simp [hj]))
    simp [user_ids_to_users, hu, hrealm, hrest, List.filterMap_cons]

theorem user_ids_to_users_ok_inv (db : List UserProfile) (realm : Realm)
    (ids : List Nat) (us : List UserProfile)
    (h : user_ids_to_users db ids realm = .ok us) :
    (∀ i ∈ ids, resolvesIn db realm i) ∧
      us = ids.filterMap (get_user_profile_by_id db) := by
  induction ids generalizing us with
  | nil =>
    simp [user_ids_to_users] at h
    simp [← h]
  | cons i rest ih =>
    simp only [user_ids_to_users] at h
    cases hu : get_user_profile_by_id db i with
    | none => simp [hu] at h
    | some u =>
      simp only [hu] at h
      by_cases hr : u.realm = realm
      · simp only [hr, ne_eq, not_true_eq_false, if_false] at h
        cases hrest : user_ids_to_users db rest realm with
        | error e => simp [hrest] at h
        | ok vs =>
          simp only [hrest, Except.ok.injEq] at h
          obtain ⟨hall, hvs⟩ := ih vs hrest
          refine ⟨?_, ?_⟩
          · intro j hj
            rcases List.mem_cons.mp hj with hj | hj
            · exact ⟨u, hj ▸ hu, hr⟩
            · exact hall j hj
          · simp [← h, List.filterMap_cons, hu, hvs]
      · simp [hr] at h

theorem filterMap_all_some_length {α β : Type} (f : α → Option β)
    (l : List α) (h : ∀ a ∈ l, (f a).isSome) :
    (l.filterMap f).length = l.length ∧
      ∀ n : Nat, (l.filterMap f)[n]? = (l[n]?).bind f := by
  induction l with
  | nil => simp
  | cons a l ih =>
    have ha := h a (by simp)
    obtain ⟨b, hb⟩ := Option.isSome_iff_exists.mp ha
    obtain ⟨ihl, ihn⟩ := ih (fun x hx => h x (by simp [hx]))
    constructor
    · simp [List.filterMap_cons, hb, ihl]
    · intro n
      cases n with
      | zero => simp [List.filterMap_cons, hb]
      | succ m => simp [List.filterMap_cons, hb, ihn m]

theorem user_ids_to_users_count_fst (db : List UserProfile) (realm : Realm)
    (ids : List Nat) :
    (user_ids_to_users_count db ids realm).1 = user_ids_to_users db ids realm := by
  induction ids with
  | nil => simp [user_ids_to_users_count, user_ids_to_users]
  | cons i rest ih =>
    simp only [user_ids_to_users_count, user_ids_to_users]
    cases hu : get_user_profile_by_id db i with
    | none => simp
    | some u =>
      by_cases hr : u.realm = realm
      · simp only [hr, ne_eq, not_true_eq_false, if_false]
        rw [← ih]
      · simp [hr]

theorem user_ids_to_users_count_ok (db : List UserProfile) (realm : Realm)
    (ids : List Nat) (h : ∀ i ∈ ids, resolvesIn db realm i) :
    (user_ids_to_users_count db ids realm).2 = ids.length := by
  induction ids with
  | nil => simp [user_ids_to_users_count]
  | cons i rest ih =>
    obtain ⟨u, hu, hrealm⟩ := h i (by simp)
    have hrest := ih (fun j hj => h j (by simp [hj]))
    simp [user_ids_to_users_count, hu, hrealm, hrest]

theorem user_profile_by_email_cache_key_inj (a b : String)
    (h : user_profile_by_email_cache_key a = user_profile_by_email_cache_key b) :
    a = b := by
  unfold user_profile_by_email_cache_key at h
  have hd := congrArg String.data h
  rw [String.data_append, String.data_append] at hd
  exact String.ext (List.append_cancel_left hd)

theorem generic_bulk_cached_fetch_keys_sub {κ ε : Type} [DecidableEq κ]
    (cache : List (String × ε)) (cache_key_function : κ → String)
    (query_function : List κ → List ε) (object_ids : List κ)
    (id_fetcher : ε → κ) :
    ∀ p ∈ generic_bulk_cached_fetch cache cache_key_function query_function
        object_ids id_fetcher, p.1 ∈ object_ids := by
  intro p hp
  simp only [generic_bulk_cached_fetch] at hp
  obtain ⟨oid, hoid, hmap⟩ := List.mem_filterMap.mp hp
  obtain ⟨e, _, hpe⟩ := Option.map_eq_some'.mp hmap
  rw [← hpe]
  exact hoid

theorem user_ids_to_users_fail_fast (db : List UserProfile) (realm : Realm)
    (pre : List Nat) (bad : Nat) (rest : List Nat)
    (hpre : ∀ i ∈ pre, resolvesIn db realm i)
    (hbad : ¬ resolvesIn db realm bad) :
    user_ids_to_users db (pre ++ bad :: rest) realm =
        .error (invalidUserIdMsg bad) ∧
      (user_ids_to_users_count db (pre ++ bad :: rest) realm).2 =
        pre.length + 1 := by
  induction pre with
  | nil =>
    cases hu : get_user_profile_by_id db bad with
    | none => simp [user_ids_to_users, user_ids_to_users_count, hu]
    | some u =>
      have hr : u.realm ≠ realm := fun hc => hbad ⟨u, hu, hc⟩
      simp [user_ids_to_users, user_ids_to_users_count, hu, hr]
  | cons i pre ih =>
    obtain ⟨u, hu, hrealm⟩ := hpre i (by simp)
    obtain ⟨ih1, ih2⟩ := ih (fun j hj => hpre j (by simp [hj]))
    constructor
    · simp [user_ids_to_users, hu, hrealm, ih1]
    · simp [user_ids_to_users_count, hu, hrealm]
      omega

theorem fetch_users_by_email_pair (base_query : List UserProfile)
    (lg lb : String) (u : UserProfile)
    (hg : base_query.filter (fun v => pyUpper v.email == pyUpper lg) = [u])
    (hb : ∀ v ∈ base_query, pyUpper v.email ≠ pyUpper lb) :
    fetch_users_by_email base_query [lg, lb] = [u] := by
  unfold fetch_users_by_email
  simp only [List.length_cons, List.length_nil]
  rw [if_neg (by omega)]
  rw [← hg]
  apply List.filter_congr
  intro v hv
  have hb' : (pyUpper v.email == pyUpper lb) = false :=
    beq_eq_false_iff_ne.mpr (hb v hv)
  simp [hb']

theorem generic_bulk_cached_fetch_pair {κ ε : Type} [DecidableEq κ]
    (cache_key_function : κ → String) (query_function : List κ → List ε)
    (id_fetcher : ε → κ) (k1 k2 : κ) (u : ε)
    (hne : k1 ≠ k2)
    (hinj : ∀ a b, cache_key_function a = cache_key_function b → a = b)
    (hq : query_function [k1, k2] = [u])
    (hk : cache_key_function (id_fetcher u) = cache_key_function k1) :
    generic_bulk_cached_fetch [] cache_key_function query_function [k1, k2]
      id_fetcher = [(k1, u)] := by
  have h1 : (cache_key_function (id_fetcher u) == cache_key_function k1) = true :=
    beq_iff_eq.mpr hk
  have h2 : (cache_key_function (id_fetcher u) == cache_key_function k2) = false := by
    apply beq_eq_false_iff_ne.mpr
    intro hc
    exact hne (hinj _ _ (hk.symm.trans hc))
  have hne' : k2 ≠ k1 := Ne.symm hne
  have h2' : cache_key_function (id_fetcher u) ≠ cache_key_function k2 :=
    fun hc => hne (hinj _ _ (hk.symm.trans hc))
  have h3 : cache_key_function k1 ≠ cache_key_function k2 :=
    fun hc => hne (hinj _ _ hc)
  simp [generic_bulk_cached_fetch, alistLookup, dedupFirst, hne', hq,
    List.filterMap_cons, List.find?, h1, h2, hk, h2', h3]

/-! ## Claim theorems -/

/-- C6: for every raw input string whose trimmed form has length within the
configured minimum and maximum bounds and contains no character from the
configured forbidden-character set, `check_full_name` succeeds and returns
exactly the trimmed input (the function is pure, so there is no side
effect to speak of). -/
theorem claim_C6 (cfg : NameConfig) (raw : String)
    (hmin : cfg.MIN_NAME_LENGTH ≤ (pyStrip raw).length)
    (hmax : (pyStrip raw).length ≤ cfg.MAX_NAME_LENGTH)
    (hchars : ∀ c ∈ (pyStrip raw).data, c ∉ cfg.NAME_INVALID_CHARS) :
    check_full_name cfg raw = .ok (pyStrip raw) := by
  have h3 : ((pyStrip raw).data.any
      (fun c => cfg.NAME_INVALID_CHARS.contains c)) = false := by
    simp only [List.any_eq_false]
    intro c hc
    simpa using hchars c hc
  simp only [check_full_name]
  rw [if_neg (by omega), if_neg (by omega), if_neg (by simpa using hchars)]

/-- Witness for C6 at a concrete configuration and input. -/
theorem claim_C6_witness :
    check_full_name ⟨10, 1, ['*']⟩ " bob " = .ok "bob" :=
  claim_C6 ⟨10, 1, ['*']⟩ " bob " (by decide) (by decide) (by decide)

/-- C7 counterexample: the claim says any string over the maximum length
fails with `TooLong` regardless of its content, but `check_full_name` strips
first, so a 6-character all-whitespace input with `MAX_NAME_LENGTH = 3`
(and `MIN_NAME_LENGTH = 1`) trims to the empty string and fails with the
`TooShort` error instead of the `TooLong` one. -/
theorem claim_C7_counterexample :
    ("      " : String).length > (3 : Nat) ∧
    check_full_name ⟨3, 1, []⟩ "      " = .error "Name too short!" ∧
    ("Name too short!" : String) ≠ "Name too long!" :=
  ⟨by decide, rfl, by decide⟩

/-- C7 as amended: with a positive minimum no larger than the maximum,
`check_full_name` fails with `TooShort` on the empty string and on any
string under the minimum length, fails with `TooLong` on any string whose
*trimmed* form is over the maximum length regardless of content (forbidden
characters included), and fails with `InvalidCharacters` on any name of
valid trimmed length containing a forbidden character. -/
theorem claim_C7_amended (cfg : NameConfig) (raw : String)
    (hmin_pos : 0 < cfg.MIN_NAME_LENGTH)
    (hminmax : cfg.MIN_NAME_LENGTH ≤ cfg.MAX_NAME_LENGTH) :
    (raw = "" ∨ raw.length < cfg.MIN_NAME_LENGTH →
      check_full_name cfg raw = .error "Name too short!") ∧
    ((pyStrip raw).length > cfg.MAX_NAME_LENGTH →
      check_full_name cfg raw = .error "Name too long!") ∧
    (cfg.MIN_NAME_LENGTH ≤ (pyStrip raw).length →
      (pyStrip raw).length ≤ cfg.MAX_NAME_LENGTH →
      (∃ c ∈ (pyStrip raw).data, c ∈ cfg.NAME_INVALID_CHARS) →
      check_full_name cfg raw = .error "Invalid characters in name!") := by
  refine ⟨?_, ?_, ?_⟩
  · intro h
    have hlen : raw.length < cfg.MIN_NAME_LENGTH := by
      rcases h with h | h
      · simp [h, String.length]
        omega
      · exact h
    have hs := pyStrip_length_le raw
    simp only [check_full_name]
    rw [if_neg (by omega), if_pos (by omega)]
  · intro h
    simp only [check_full_name]
    rw [if_pos (by omega)]
  · intro h1 h2 hex
    have h3 : ((pyStrip raw).data.any
        (fun c => cfg.NAME_INVALID_CHARS.contains c)) = true := by
      obtain ⟨c, hc, hmem⟩ := hex
      simp only [List.any_eq_true]
      exact ⟨c, hc, by simpa using hmem⟩
    simp only [check_full_name]
    rw [if_neg (by omega), if_neg (by omega), if_pos (by simpa using hex)]

/-- Witness for the amended C7 at a concrete configuration: the empty
string is too short, a four-letter name is too long for `MAX = 3`, and a
valid-length name containing `@` has invalid characters. -/
theorem claim_C7_witness :
    check_full_name ⟨3, 1, ['@']⟩ "" = .error "Name too short!" ∧
    check_full_name ⟨3, 1, ['@']⟩ "aaaa" = .error "Name too long!" ∧
    check_full_name ⟨3, 1, ['@']⟩ "a@" = .error "Invalid characters in name!" :=
  ⟨(claim_C7_amended ⟨3, 1, ['@']⟩ "" (by decide) (by decide)).1 (Or.inl rfl),
   (claim_C7_amended ⟨3, 1, ['@']⟩ "aaaa" (by decide) (by decide)).2.1
     (by decide),
   (claim_C7_amended ⟨3, 1, ['@']⟩ "a@" (by decide) (by decide)).2.2
     (by decide) (by decide) (by decide)⟩

/-- C8: `check_short_name` fails with the `Empty` error exactly when the
whitespace-trimmed input has zero length, and otherwise returns exactly the
trimmed input. -/
theorem claim_C8 (raw : String) :
    (check_short_name raw = .error "Bad name or username" ↔
      (pyStrip raw).length = 0) ∧
    ((pyStrip raw).length ≠ 0 → check_short_name raw = .ok (pyStrip raw)) := by
  unfold check_short_name
  by_cases h : (pyStrip raw).length = 0
  · simp [h]
  · simp [h]

/-- Witness for C8: a string of only spaces fails with `Empty`, and
`"  bob  "` returns `"bob"`. -/
theorem claim_C8_witness :
    check_short_name "   " = .error "Bad name or username" ∧
    check_short_name "  bob  " = .ok "bob" :=
  ⟨(claim_C8 "   ").1.mpr (by decide), (claim_C8 "  bob  ").2 (by decide)⟩

/-- C2: for every store, realm and user id, `user_ids_to_users` fails with
the `InvalidUserId` error carrying the offending id both when no entity
with that id exists and when the entity exists but belongs to a different
realm than the one supplied; both branches produce the very same error
value `invalidUserIdMsg user_id`, so the externally visible error is
identical in the two cases. -/
theorem claim_C2 (db : List UserProfile) (realm : Realm) (user_id : Nat) :
    (get_user_profile_by_id db user_id = none →
      user_ids_to_users db [user_id] realm =
        .error (invalidUserIdMsg user_id)) ∧
    (∀ u, get_user_profile_by_id db user_id = some u → u.realm ≠ realm →
      user_ids_to_users db [user_id] realm =
        .error (invalidUserIdMsg user_id)) := by
  constructor
  · intro h
    simp [user_ids_to_users, h]
  · intro u hu hr
    simp [user_ids_to_users, hu, hr]

/-- Witness for C2: id 99 does not exist in the store, and id 1 exists but
belongs to `realmA`, not `realmB`; both give the same-shaped error. -/
theorem claim_C2_witness :
    user_ids_to_users dbA [99] realmA = .error "Invalid user ID: 99" ∧
    user_ids_to_users dbA [1] realmB = .error "Invalid user ID: 1" :=
  ⟨(claim_C2 dbA realmA 99).1 (by decide),
   (claim_C2 dbA realmB 1).2 alice (by decide) (by decide)⟩

/-- C5: when every id in the list resolves in the supplied realm,
`user_ids_to_users` succeeds and returns the corresponding entities in
exactly the order of the input ids: the n-th output entity is the store's
entity for the n-th input id. -/
theorem claim_C5 (db : List UserProfile) (realm : Realm) (ids : List Nat)
    (h : ∀ i ∈ ids, resolvesIn db realm i) :
    user_ids_to_users db ids realm =
        .ok (ids.filterMap (get_user_profile_by_id db)) ∧
      ∀ n : Nat, (ids.filterMap (get_user_profile_by_id db))[n]? =
        (ids[n]?).bind (get_user_profile_by_id db) := by
  refine ⟨user_ids_to_users_ok_eq db realm ids h, ?_⟩
  exact (filterMap_all_some_length _ _ (fun i hi => by
    obtain ⟨u, hu, _⟩ := h i hi
    simp [hu])).2

/-- Witness for C5: the ids `[3, 1, 2]` resolve to `[carol, alice, bob]`,
in input order. -/
theorem claim_C5_witness :
    user_ids_to_users dbA [3, 1, 2] realmA = .ok [carol, alice, bob] :=
  (claim_C5 dbA realmA [3, 1, 2] (by decide)).1

/-- C10: on success, `user_ids_to_users` returns exactly one entity per
input id: the output list has the length of the input list and the entity
at each position is the store's entity for the id at that position — hence
a duplicated input id yields the same entity at each corresponding
position, with no deduplication — and one backing-store point lookup is
performed per input id. -/
theorem claim_C10 (db : List UserProfile) (realm : Realm) (ids : List Nat)
    (us : List UserProfile)
    (h : user_ids_to_users db ids realm = .ok us) :
    us.length = ids.length ∧
    (∀ n : Nat, us[n]? = (ids[n]?).bind (get_user_profile_by_id db)) ∧
    (user_ids_to_users_count db ids realm).2 = ids.length := by
  obtain ⟨hall, hus⟩ := user_ids_to_users_ok_inv db realm ids us h
  have hsome : ∀ i ∈ ids, (get_user_profile_by_id db i).isSome := fun i hi => by
    obtain ⟨u, hu, _⟩ := hall i hi
    simp [hu]
  obtain ⟨hlen, hpos⟩ := filterMap_all_some_length _ _ hsome
  exact ⟨by rw [hus]; exact hlen, fun n => by rw [hus]; exact hpos n,
    user_ids_to_users_count_ok db realm ids hall⟩

/-- Witness for C10 at the duplicated input `[1, 1]`, which resolves to
`[alice, alice]`. -/
theorem claim_C10_witness :
    ([alice, alice] : List UserProfile).length = ([1, 1] : List Nat).length ∧
    (∀ n : Nat, ([alice, alice] : List UserProfile)[n]? =
      (([1, 1] : List Nat)[n]?).bind (get_user_profile_by_id dbA)) ∧
    (user_ids_to_users_count dbA [1, 1] realmA).2 =
      ([1, 1] : List Nat).length :=
  claim_C10 dbA realmA [1, 1] [alice, alice] rfl

/-- C1 counterexample: with a store containing `alice` (stored email
`"alice@example.com"`) and the single input email `"Alice@Example.com"`,
the email does resolve, but `bulk_get_users` keys the returned mapping by
the canonical lower-cased form, not by the raw email string exactly as the
caller passed it in. -/
theorem claim_C1_counterexample :
    bulk_get_users dbA [] ["Alice@Example.com"] (some realmA) none =
      some [("alice@example.com", alice)] ∧
    ("alice@example.com" : String) ≠ "Alice@Example.com" :=
  ⟨rfl, by decide⟩

/-- C1 as amended: for every input list of emails, the mapping returned by
`bulk_get_users` is keyed by the lower-cased canonical forms of the emails
the caller passed in — every key of the result is the lower-casing of some
input email. -/
theorem claim_C1_amended (db : List UserProfile)
    (cache : List (String × UserProfile)) (emails : List String)
    (realm : Option Realm) (base_query : Option (List UserProfile))
    (m : List (String × UserProfile))
    (h : bulk_get_users db cache emails realm base_query = some m) :
    ∀ p ∈ m, p.1 ∈ emails.map pyLower := by
  intro p hp
  cases base_query with
  | none =>
    cases realm with
    | none => simp [bulk_get_users] at h
    | some r =>
      simp only [bulk_get_users, Option.some.injEq] at h
      exact generic_bulk_cached_fetch_keys_sub _ _ _ _ _ p (h ▸ hp)
  | some bq =>
    simp only [bulk_get_users, Option.some.injEq] at h
    exact generic_bulk_cached_fetch_keys_sub _ _ _ _ _ p (h ▸ hp)

/-- Witness for the amended C1 at the counterexample input: the only key of
the result is a lower-cased input email. -/
theorem claim_C1_amended_witness :
    ("alice@example.com", alice).1 ∈
      (["Alice@Example.com"] : List String).map pyLower :=
  claim_C1_amended dbA [] ["Alice@Example.com"] (some realmA) none
    [("alice@example.com", alice)] rfl ("alice@example.com", alice)
    (by simp)

/-- C3: resolution through `bulk_get_users` is case-insensitive — two calls
whose single input emails differ only in letter case (that is, have equal
lower-casings) return identical mappings, and in particular resolve to the
same entity. -/
theorem claim_C3 (db : List UserProfile)
    (cache : List (String × UserProfile)) (realm : Option Realm)
    (base_query : Option (List UserProfile)) (e1 e2 : String)
    (h : pyLower e1 = pyLower e2) :
    bulk_get_users db cache [e1] realm base_query =
      bulk_get_users db cache [e2] realm base_query := by
  cases base_query <;> cases realm <;> simp [bulk_get_users, h]

/-- Witness for C3: `"Alice@Example.com"` and `"alice@example.com"` resolve
identically. -/
theorem claim_C3_witness :
    bulk_get_users dbA [] ["Alice@Example.com"] (some realmA) none =
      bulk_get_users dbA [] ["alice@example.com"] (some realmA) none :=
  claim_C3 dbA [] (some realmA) none "Alice@Example.com" "alice@example.com"
    (by decide)

/-- C4: the id-based resolver fails fast — for any prefix of resolvable ids
followed by an unresolvable id, the result is the `InvalidUserId` error of
that first unresolvable id whatever ids follow it, and exactly the prefix
lookups plus the failing one are performed, so no later failure is
collected — while the email-based resolver never raises: with a realm
supplied the result is always a mapping, and given one resolvable and one
nonexistent email (on an empty cache) the mapping contains exactly the
resolvable one. -/
theorem claim_C4 :
    (∀ (db : List UserProfile) (realm : Realm) (pre : List Nat) (bad : Nat)
        (rest : List Nat),
      (∀ i ∈ pre, resolvesIn db realm i) → ¬ resolvesIn db realm bad →
      user_ids_to_users db (pre ++ bad :: rest) realm =
          .error (invalidUserIdMsg bad) ∧
        (user_ids_to_users_count db (pre ++ bad :: rest) realm).2 =
          pre.length + 1) ∧
    (∀ (db : List UserProfile) (cache : List (String × UserProfile))
        (emails : List String) (r : Realm)
        (base_query : Option (List UserProfile)),
      (bulk_get_users db cache emails (some r) base_query).isSome) ∧
    (∀ (db : List UserProfile) (realm : Realm) (eg eb : String)
        (u : UserProfile),
      pyLower eg ≠ pyLower eb →
      (default_base_query db realm).filter
          (fun v => pyUpper v.email == pyUpper (pyLower eg)) = [u] →
      (∀ v ∈ default_base_query db realm,
        pyUpper v.email ≠ pyUpper (pyLower eb)) →
      pyLower u.email = pyLower eg →
      bulk_get_users db [] [eg, eb] (some realm) none =
        some [(pyLower eg, u)]) := by
  refine ⟨?_, ?_, ?_⟩
  · intro db realm pre bad rest hpre hbad
    exact user_ids_to_users_fail_fast db realm pre bad rest hpre hbad
  · intro db cache emails r base_query
    cases base_query <;> simp [bulk_get_users]
  · intro db realm eg eb u hne hg hb hkey
    simp only [bulk_get_users, List.map_cons, List.map_nil,
      Option.some.injEq]
    have hq : fetch_users_by_email (default_base_query db realm)
        [pyLower eg, pyLower eb] = [u] :=
      fetch_users_by_email_pair _ _ _ _ hg hb
    exact generic_bulk_cached_fetch_pair
      (fun email => user_profile_by_email_cache_key email)
      (fetch_users_by_email (default_base_query db realm))
      (fun user_profile => pyLower user_profile.email)
      (pyLower eg) (pyLower eb) u hne user_profile_by_email_cache_key_inj hq
      (congrArg user_profile_by_email_cache_key hkey)

/-- Witness for C4: the ids `[1, 99, 2]` fail on 99 after two lookups; a
one-email call returns a mapping; one resolvable plus one nonexistent email
returns a mapping containing exactly the resolvable one. -/
theorem claim_C4_witness :
    (user_ids_to_users dbA [1, 99, 2] realmA = .error "Invalid user ID: 99" ∧
      (user_ids_to_users_count dbA [1, 99, 2] realmA).2 = 2) ∧
    (bulk_get_users dbA [] ["alice@example.com"] (some realmA) none).isSome ∧
    bulk_get_users dbA [] ["Alice@Example.com", "nobody@example.com"]
        (some realmA) none = some [("alice@example.com", alice)] :=
  ⟨claim_C4.1 dbA realmA [1] 99 [2] (by decide) (by decide),
   claim_C4.2.1 dbA [] ["alice@example.com"] realmA none,
   claim_C4.2.2 dbA realmA "Alice@Example.com" "nobody@example.com" alice
     (by decide) (by decide) (by decide) (by decide)⟩

/-- C9: calling `bulk_get_users` with `realm = none` and
`base_query = none` trips the bare `assert realm is not None` (modelled by
the `none` result, which is distinct from every `JsonableError` validation
error this module raises — those are `.error` strings inside a `some`);
and under the implicit precondition that `realm` is present whenever
`base_query` is absent, the assertion-failure branch is unreachable: the
call always returns a mapping. -/
theorem claim_C9 (db : List UserProfile)
    (cache : List (String × UserProfile)) (emails : List String) :
    bulk_get_users db cache emails none none = none ∧
    ∀ (realm : Option Realm) (base_query : Option (List UserProfile)),
      (base_query = none → realm ≠ none) →
      (bulk_get_users db cache emails realm base_query).isSome := by
  refine ⟨rfl, ?_⟩
  intro realm base_query hpre
  cases base_query with
  | none =>
    cases realm with
    | none => exact absurd rfl (hpre rfl)
    | some r => simp [bulk_get_users]
  | some bq => cases realm <;> simp [bulk_get_users]

/-- Witness for C9 at concrete inputs: the assertion trips with both
arguments absent, and a present realm yields a mapping. -/
theorem claim_C9_witness :
    bulk_get_users dbA [] ["alice@example.com"] none none = none ∧
    (bulk_get_users dbA [] ["alice@example.com"] (some realmA) none).isSome :=
  ⟨(claim_C9 dbA [] ["alice@example.com"]).1,
   (claim_C9 dbA [] ["alice@example.com"]).2 (some realmA) none
     (fun _ => Option.some_ne_none realmA)⟩
